import Mathlib

/-!
Shallow embedding of `oncall-exporter.py`: a polling metrics exporter that
fetches JSON from an on-call scheduling API and republishes derived gauges.

Modelling conventions:
- Prometheus counters/gauges are fields of a `Metrics` record (numeric values
  as `Nat`); labelled gauges are write-logs (`List (key × value)`) read through
  `List.lookup`, so the most recent write wins and unwritten series are `none`.
- An HTTP fetch outcome is `FetchResult β`: either a transport error (the
  `requests.get` call raised) or a response with a status code and a body.
  A body that fails to parse as the expected JSON shape (so that `resp.json()`
  or subsequent indexing raises) is modelled as `none` inside the body type.
- Each aggregator returns `Metrics × Bool`: the metrics state after the call
  (mutations made before an exception persist) and whether it raised.
- A dict truthiness test (`if not event`) maps to `Option`: `none` stands for
  any falsy slot value (JSON `null`, empty object), `some ev` for a truthy one.
-/

structure Member where
  user_contacts : List String
  deriving DecidableEq, Repr

structure Event where
  primary : List Member
  secondary : List Member
  deriving DecidableEq, Repr

structure Summary where
  current : Option Event
  next : Option Event
  deriving DecidableEq, Repr

structure User where
  name : String
  contacts : List String
  deriving DecidableEq, Repr

inductive FetchResult (β : Type) where
  | transportError : FetchResult β
  | response (status : Nat) (body : β) : FetchResult β

/-- The process-wide metric registry: every instrument declared by the
exporter, counters and gauges as numbers, labelled gauges as write-logs. -/
structure Metrics where
  api_requests_total : Nat
  api_requests_failed_total : Nat
  health_status : Nat
  users_total : Nat
  users_without_contacts : Nat
  users_without_phone : Nat
  teams_total : Nat
  teams_understaffed : Nat
  teams_unreachable : Nat
  rotation_staff : List ((String × String) × Nat)
  rotation_unreachable : List ((String × String) × Nat)
  deriving DecidableEq, Repr

def mZero : Metrics :=
  { api_requests_total := 0, api_requests_failed_total := 0, health_status := 0,
    users_total := 0, users_without_contacts := 0, users_without_phone := 0,
    teams_total := 0, teams_understaffed := 0, teams_unreachable := 0,
    rotation_staff := [], rotation_unreachable := [] }

/-- `request_with_counting`: increments the attempt counter, performs the GET
(a transport error propagates as an exception, modelled by `none`), and on a
non-200 status additionally increments the failure counter. The response is
returned to the caller either way. -/
def request_with_counting (m : Metrics) (r : FetchResult β) : Metrics × Option (Nat × β) :=
  let m1 := { m with api_requests_total := m.api_requests_total + 1 }
  match r with
  | .transportError => (m1, none)
  | .response s b =>
    if s = 200 then (m1, some (s, b))
    else ({ m1 with api_requests_failed_total := m1.api_requests_failed_total + 1 }, some (s, b))

/-- The `health` updater: probes `/`, sets the health gauge to 1 on status 200
and to 0 on any other received status. -/
def health (r : FetchResult Unit) (m : Metrics) : Metrics × Bool :=
  match request_with_counting m r with
  | (m1, none) => (m1, true)
  | (m1, some (s, _)) =>
    if s = 200 then ({ m1 with health_status := 1 }, false)
    else ({ m1 with health_status := 0 }, false)

/-- `"call" not in user['contacts'] and "sms" not in user['contacts']`. -/
def userNoPhone (u : User) : Bool :=
  !(u.contacts.contains "call") && !(u.contacts.contains "sms")

/-- The `number_of_users_without_contacts` updater: fetches `/api/v0/users`;
on a non-200 status returns without touching its gauges; otherwise writes the
total, contacts-empty, and phone-less counts. -/
def number_of_users_without_contacts (r : FetchResult (Option (List User)))
    (m : Metrics) : Metrics × Bool :=
  match request_with_counting m r with
  | (m1, none) => (m1, true)
  | (m1, some (s, body)) =>
    if s ≠ 200 then (m1, false)
    else
      match body with
      | none => (m1, true)
      | some users =>
        let m2 := { m1 with users_total := users.length }
        let failed_users := (users.filter (fun u => u.contacts.isEmpty)).length
        let no_phone := (users.filter userNoPhone).length
        ({ m2 with users_without_contacts := failed_users, users_without_phone := no_phone },
         false)

/-- `"call" not in member['user_contacts'] and "sms" not in member['user_contacts']`. -/
def memberNoPhone (mem : Member) : Bool :=
  !(mem.user_contacts.contains "call") && !(mem.user_contacts.contains "sms")

/-- A labelled-gauge `.labels(k).set(v)`: prepend to the write-log. -/
def gaugeSet (series : List ((String × String) × Nat)) (k : String × String) (v : Nat) :
    List ((String × String) × Nat) :=
  (k, v) :: series

/-- One iteration of `for event_time in ["current", "next"]` in `teams()`:
writes the two per-team+slot series and updates the two team flags. -/
def processEvent (team_name event_time : String) (event : Option Event)
    (m : Metrics) (is_understaffed is_unreach : Bool) : Metrics × Bool × Bool :=
  match event with
  | none =>
    ({ m with
        rotation_staff := gaugeSet m.rotation_staff (team_name, event_time) 0,
        rotation_unreachable := gaugeSet m.rotation_unreachable (team_name, event_time) 0 },
     is_understaffed, is_unreach)
  | some ev =>
    let members := ev.primary ++ ev.secondary
    let members_without_number := members.filter memberNoPhone
    let m1 := { m with
      rotation_staff := gaugeSet m.rotation_staff (team_name, event_time) members.length,
      rotation_unreachable :=
        gaugeSet m.rotation_unreachable (team_name, event_time) members_without_number.length }
    (m1,
     is_understaffed || decide (members.length < 2),
     is_unreach || decide (members_without_number = members))

/-- The body of the per-team loop after a successful summary fetch: both slots
processed in order, flags starting false. -/
def processTeam (team_name : String) (td : Summary) (m : Metrics) : Metrics × Bool × Bool :=
  let r1 := processEvent team_name "current" td.current m false false
  processEvent team_name "next" td.next r1.1 r1.2.1 r1.2.2

/-- The `for team_name in teams` loop of `teams()`: threads the metrics state
and the two rollup accumulators; returns `none` for the accumulators when an
exception escaped the loop (transport error or malformed summary JSON). -/
def teamsLoop (summaries : String → FetchResult (Option Summary)) :
    List String → Metrics → Nat → Nat → Metrics × Option (Nat × Nat)
  | [], m, u, r => (m, some (u, r))
  | team_name :: rest, m, u, r =>
    match request_with_counting m (summaries team_name) with
    | (m1, none) => (m1, none)
    | (m1, some (s, body)) =>
      if s ≠ 200 then teamsLoop summaries rest m1 u r
      else
        match body with
        | none => (m1, none)
        | some td =>
          let res := processTeam team_name td m1
          teamsLoop summaries rest res.1
            (u + (if res.2.1 then 1 else 0)) (r + (if res.2.2 then 1 else 0))

/-- The `teams` updater: fetches the team list, sets the total-teams gauge,
runs the per-team loop, then writes the two rollup gauges. -/
def teams (r : FetchResult (Option (List String)))
    (summaries : String → FetchResult (Option Summary)) (m : Metrics) : Metrics × Bool :=
  match request_with_counting m r with
  | (m1, none) => (m1, true)
  | (m1, some (s, body)) =>
    if s ≠ 200 then (m1, false)
    else
      match body with
      | none => (m1, true)
      | some ts =>
        let m2 := { m1 with teams_total := ts.length }
        match teamsLoop summaries ts m2 0 0 with
        | (m3, none) => (m3, true)
        | (m3, some p) =>
          ({ m3 with teams_understaffed := p.1, teams_unreachable := p.2 }, false)

/-- One pass of the scheduler loop: `for func in updaters: try: func()
except Exception as e: logging.exception(e)` — each updater's state effect is
applied, a raised exception is swallowed, and the pass continues. -/
def runPass : List (Metrics → Metrics × Bool) → Metrics → Metrics
  | [], m => m
  | f :: rest, m => runPass rest (f m).1

/-- `n` passes of the `while True` scheduler loop. -/
def runLoop (fs : List (Metrics → Metrics × Bool)) : Nat → Metrics → Metrics
  | 0, m => m
  | n + 1, m => runLoop fs n (runPass fs m)

/-! ### Helper lemmas -/

theorem lookup_gaugeSet_self (s : List ((String × String) × Nat)) (k : String × String)
    (v : Nat) : List.lookup k (gaugeSet s k v) = some v := by
  simp [gaugeSet, List.lookup]

theorem lookup_gaugeSet_ne (s : List ((String × String) × Nat)) (k k' : String × String)
    (v : Nat) (h : k' ≠ k) : List.lookup k' (gaugeSet s k v) = List.lookup k' s := by
  have hb : (k' == k) = false := beq_eq_false_iff_ne.mpr h
  simp [gaugeSet, List.lookup, hb]

theorem lookup_append_orElse (A B : List ((String × String) × Nat)) (k : String × String) :
    List.lookup k (A ++ B) = (List.lookup k A).orElse (fun _ => List.lookup k B) := by
  induction A with
  | nil => simp [List.lookup]
  | cons hd tl ih =>
    cases hbeq : k == hd.1 with
    | true => simp [List.lookup, hbeq, Option.orElse]
    | false => simp [List.lookup, hbeq, Option.orElse, ih]

theorem lookup_append_idem (W X : List ((String × String) × Nat)) (k : String × String) :
    List.lookup k (W ++ (W ++ X)) = List.lookup k (W ++ X) := by
  rw [lookup_append_orElse W (W ++ X) k, lookup_append_orElse W X k]
  cases List.lookup k W <;> simp [Option.orElse]

/-- Each slot iteration prepends exactly one entry to each label series and
updates the flags by a disjunction; the written values and flag contributions
depend only on the event, not on the incoming metrics. -/
theorem processEvent_shape (t time : String) (ev : Option Event) :
    ∃ (v1 v2 : Nat) (a b : Bool), ∀ (m : Metrics) (u r : Bool),
      processEvent t time ev m u r =
        ({ m with rotation_staff := ((t, time), v1) :: m.rotation_staff,
                  rotation_unreachable := ((t, time), v2) :: m.rotation_unreachable },
         u || a, r || b) := by
  cases ev with
  | none =>
    exact ⟨0, 0, false, false, fun m u r => by simp [processEvent, gaugeSet]⟩
  | some e =>
    refine ⟨(e.primary ++ e.secondary).length,
      ((e.primary ++ e.secondary).filter memberNoPhone).length,
      decide ((e.primary ++ e.secondary).length < 2),
      decide ((e.primary ++ e.secondary).filter memberNoPhone = e.primary ++ e.secondary),
      fun m u r => ?_⟩
    simp [processEvent, gaugeSet]

/-- A successfully fetched team prepends exactly two entries to each label
series; the entries and the team flags depend only on the team name and
summary. -/
theorem processTeam_shape (t : String) (td : Summary) :
    ∃ (ws wu : List ((String × String) × Nat)) (fu fr : Bool), ∀ m : Metrics,
      processTeam t td m =
        ({ m with rotation_staff := ws ++ m.rotation_staff,
                  rotation_unreachable := wu ++ m.rotation_unreachable },
         fu, fr) := by
  obtain ⟨v1, v2, a, b, h1⟩ := processEvent_shape t "current" td.current
  obtain ⟨w1, w2, c, d, h2⟩ := processEvent_shape t "next" td.next
  refine ⟨[((t, "next"), w1), ((t, "current"), v1)],
    [((t, "next"), w2), ((t, "current"), v2)], a || c, b || d, fun m => ?_⟩
  simp [processTeam, h1, h2]

/-- The team flags computed by `processTeam` do not depend on the incoming
metrics state. -/
theorem processTeam_flags_const (t : String) (td : Summary) (m m' : Metrics) :
    (processTeam t td m).2 = (processTeam t td m').2 := by
  obtain ⟨ws, wu, fu, fr, h⟩ := processTeam_shape t td
  rw [h m, h m']

/-- The flag pair of a team, as a function of the team name and summary only. -/
def teamFlags (t : String) (td : Summary) : Bool × Bool :=
  (processTeam t td mZero).2

/-- The teams of a cycle whose summary fetch succeeded with parseable JSON,
paired with their summaries, in list order. -/
def fetchedTeams (summaries : String → FetchResult (Option Summary)) (ts : List String) :
    List (String × Summary) :=
  ts.filterMap (fun t =>
    match summaries t with
    | .response s body => if s = 200 then body.map (fun td => (t, td)) else none
    | .transportError => none)

/-- A summary fetch outcome that does not raise inside the team loop: a
response was received, and if its status was 200 its body parsed. -/
def summaryFetchOk (r : FetchResult (Option Summary)) : Bool :=
  match r with
  | .transportError => false
  | .response s body => decide (s ≠ 200) || body.isSome

/-- The per-team loop: the whole run changes the metrics by upstream-determined
deltas (counter increments and label-series prepends) applied uniformly to any
incoming state, and returns accumulators shifted by upstream-determined
amounts. -/
theorem teamsLoop_shape (summaries : String → FetchResult (Option Summary)) :
    ∀ ts : List String,
      ∃ (dt df : Nat) (ws wu : List ((String × String) × Nat)) (acc : Option (Nat × Nat)),
        ∀ (m : Metrics) (u r : Nat),
          teamsLoop summaries ts m u r =
            ({ m with api_requests_total := m.api_requests_total + dt,
                      api_requests_failed_total := m.api_requests_failed_total + df,
                      rotation_staff := ws ++ m.rotation_staff,
                      rotation_unreachable := wu ++ m.rotation_unreachable },
             acc.map (fun p : Nat × Nat => (u + p.1, r + p.2)))
  | [] => ⟨0, 0, [], [], some (0, 0), fun m u r => by simp [teamsLoop]⟩
  | t :: ts => by
    obtain ⟨dt, df, ws, wu, acc, ih⟩ := teamsLoop_shape summaries ts
    cases hft : summaries t with
    | transportError =>
      refine ⟨1, 0, [], [], none, fun m u r => ?_⟩
      simp [teamsLoop, hft, request_with_counting]
    | response s body =>
      by_cases hs : s = 200
      · subst hs
        cases body with
        | none =>
          refine ⟨1, 0, [], [], none, fun m u r => ?_⟩
          simp [teamsLoop, hft, request_with_counting]
        | some td =>
          obtain ⟨tws, twu, fu, fr, hteam⟩ := processTeam_shape t td
          refine ⟨1 + dt, df, ws ++ tws, wu ++ twu,
            acc.map (fun p : Nat × Nat =>
              ((if fu then 1 else 0) + p.1, (if fr then 1 else 0) + p.2)),
            fun m u r => ?_⟩
          cases acc with
          | none =>
            simp [teamsLoop, request_with_counting, hft, hteam, ih, Metrics.mk.injEq,
              Nat.add_assoc, List.append_assoc]
          | some p =>
            simp [teamsLoop, request_with_counting, hft, hteam, ih, Metrics.mk.injEq,
              Nat.add_assoc, List.append_assoc]
      · refine ⟨1 + dt, 1 + df, ws, wu, acc, fun m u r => ?_⟩
        simp [teamsLoop, request_with_counting, hft, hs, ih, Metrics.mk.injEq,
          Nat.add_assoc]

/-- When no summary fetch raises, the loop completes and adds to each rollup
accumulator the number of successfully fetched teams whose flag is set. -/
theorem teamsLoop_rollup (summaries : String → FetchResult (Option Summary)) :
    ∀ (ts : List String) (m : Metrics) (u r : Nat),
      (∀ t0 ∈ ts, summaryFetchOk (summaries t0) = true) →
      (teamsLoop summaries ts m u r).2 =
        some (u + ((fetchedTeams summaries ts).filter
                (fun p => (teamFlags p.1 p.2).1)).length,
              r + ((fetchedTeams summaries ts).filter
                (fun p => (teamFlags p.1 p.2).2)).length)
  | [], m, u, r, _ => by simp [teamsLoop, fetchedTeams]
  | t :: ts, m, u, r, hok => by
    have hokt : summaryFetchOk (summaries t) = true := hok t (by simp)
    have hokr : ∀ t0 ∈ ts, summaryFetchOk (summaries t0) = true :=
      fun t0 ht0 => hok t0 (by simp [ht0])
    have ih := teamsLoop_rollup summaries ts
    cases hft : summaries t with
    | transportError => rw [hft] at hokt; simp [summaryFetchOk] at hokt
    | response s body =>
      by_cases hs : s = 200
      · subst hs
        cases body with
        | none => rw [hft] at hokt; simp [summaryFetchOk] at hokt
        | some td =>
          have hflags : ∀ m1 : Metrics, (processTeam t td m1).2 = teamFlags t td :=
            fun m1 => processTeam_flags_const t td m1 mZero
          simp [teamsLoop, request_with_counting, hft, hflags, ih _ _ _ hokr,
            fetchedTeams]
          cases hu : (teamFlags t td).1 <;> cases hr : (teamFlags t td).2 <;>
            simp [hu, hr] <;> omega
      · simp [teamsLoop, request_with_counting, hft, hs, ih _ _ _ hokr, fetchedTeams]

/-- A pass is determined by the updaters' state effects alone: changing which
updaters raise (keeping their state effects) changes nothing. -/
theorem runPass_congr (fs gs : List (Metrics → Metrics × Bool))
    (h : fs.map (fun g s => (g s).1) = gs.map (fun g s => (g s).1)) :
    ∀ m : Metrics, runPass fs m = runPass gs m := by
  induction fs generalizing gs with
  | nil =>
    cases gs with
    | nil => intro m; rfl
    | cons g gs => simp at h
  | cons f fs ih =>
    cases gs with
    | nil => simp at h
    | cons g gs =>
      simp only [List.map_cons, List.cons.injEq] at h
      intro m
      have hfg : (f m).1 = (g m).1 := congrFun h.1 m
      simp only [runPass, hfg]
      exact ih gs h.2 _

theorem runLoop_congr (fs gs : List (Metrics → Metrics × Bool))
    (h : fs.map (fun g s => (g s).1) = gs.map (fun g s => (g s).1)) :
    ∀ (n : Nat) (m : Metrics), runLoop fs n m = runLoop gs n m := by
  intro n
  induction n with
  | zero => intro m; rfl
  | succ k ih =>
    intro m
    simp only [runLoop, runPass_congr fs gs h m]
    exact ih _

/-- Gauge-level agreement of two metric states: every scalar gauge is equal
and every labelled series reads the same value; the two request counters are
deliberately not compared. -/
def gaugeEquiv (a b : Metrics) : Prop :=
  a.health_status = b.health_status ∧
  a.users_total = b.users_total ∧
  a.users_without_contacts = b.users_without_contacts ∧
  a.users_without_phone = b.users_without_phone ∧
  a.teams_total = b.teams_total ∧
  a.teams_understaffed = b.teams_understaffed ∧
  a.teams_unreachable = b.teams_unreachable ∧
  (∀ k : String × String,
    List.lookup k a.rotation_staff = List.lookup k b.rotation_staff) ∧
  (∀ k : String × String,
    List.lookup k a.rotation_unreachable = List.lookup k b.rotation_unreachable)

/-! ### Claim theorems -/

/-- A team flag already set before a slot iteration stays set. -/
theorem processEvent_flag1_mono (t time : String) (ev : Option Event) (m : Metrics)
    (u r : Bool) (hu : u = true) : (processEvent t time ev m u r).2.1 = true := by
  obtain ⟨v1, v2, a, b, h⟩ := processEvent_shape t time ev
  simp [h, hu]

theorem processEvent_flag2_mono (t time : String) (ev : Option Event) (m : Metrics)
    (u r : Bool) (hr : r = true) : (processEvent t time ev m u r).2.2 = true := by
  obtain ⟨v1, v2, a, b, h⟩ := processEvent_shape t time ev
  simp [h, hr]

/-- C1: for a present (truthy) slot event, the staff series gets the length of
primary ++ secondary and the unreachable series the count of members with
neither a `call` nor an `sms` contact; the team is marked understaffed when
some slot has fewer than 2 members and unreachable-by-phone when some slot's
filtered member list equals the full member list; and after a successful
team-list fetch the rollup gauges equal the number of successfully fetched
teams so flagged. -/
theorem teams_slots_flags_and_rollups
    (t time : String) (ev : Event) (m : Metrics) (isU isR : Bool) (td : Summary)
    (ts : List String) (summaries : String → FetchResult (Option Summary)) (m0 : Metrics)
    (hok : ∀ t0 ∈ ts, summaryFetchOk (summaries t0) = true) :
    List.lookup (t, time) (processEvent t time (some ev) m isU isR).1.rotation_staff =
      some (ev.primary ++ ev.secondary).length ∧
    List.lookup (t, time)
        (processEvent t time (some ev) m isU isR).1.rotation_unreachable =
      some ((ev.primary ++ ev.secondary).filter memberNoPhone).length ∧
    ((∃ e : Event, (td.current = some e ∨ td.next = some e) ∧
        (e.primary ++ e.secondary).length < 2) →
      (processTeam t td m).2.1 = true) ∧
    ((∃ e : Event, (td.current = some e ∨ td.next = some e) ∧
        (e.primary ++ e.secondary).filter memberNoPhone = e.primary ++ e.secondary) →
      (processTeam t td m).2.2 = true) ∧
    (teams (.response 200 (some ts)) summaries m0).1.teams_understaffed =
      ((fetchedTeams summaries ts).filter (fun p => (teamFlags p.1 p.2).1)).length ∧
    (teams (.response 200 (some ts)) summaries m0).1.teams_unreachable =
      ((fetchedTeams summaries ts).filter (fun p => (teamFlags p.1 p.2).2)).length := by
  refine ⟨?_, ?_, ?_, ?_, ?_, ?_⟩
  · simp [processEvent, gaugeSet, List.lookup]
  · simp [processEvent, gaugeSet, List.lookup]
  · rintro ⟨e, he, hlen⟩
    have hlen' : e.primary.length + e.secondary.length < 2 := by simpa using hlen
    cases he with
    | inl hcur =>
      have h1 : (processEvent t "current" td.current m false false).2.1 = true := by
        simp only [hcur, processEvent]
        simp [hlen, hlen']
      simp only [processTeam]
      exact processEvent_flag1_mono t "next" td.next _ _ _ h1
    | inr hnextEq =>
      simp only [processTeam, hnextEq, processEvent]
      simp [hlen, hlen']
  · rintro ⟨e, he, hfil⟩
    have hfil' := hfil
    simp at hfil'
    cases he with
    | inl hcur =>
      have h1 : (processEvent t "current" td.current m false false).2.2 = true := by
        simp only [hcur, processEvent]
        simp [hfil, hfil']
      simp only [processTeam]
      exact processEvent_flag2_mono t "next" td.next _ _ _ h1
    | inr hnextEq =>
      simp only [processTeam, hnextEq, processEvent]
      simp [hfil, hfil']
  · obtain ⟨dt, df, ws, wu, acc, hshape⟩ := teamsLoop_shape summaries ts
    have hroll := teamsLoop_rollup summaries ts mZero 0 0 hok
    rw [hshape] at hroll
    cases acc with
    | none => simp at hroll
    | some p =>
      obtain ⟨p1, p2⟩ := p
      simp at hroll
      simp [teams, request_with_counting, hshape, hroll.1]
  · obtain ⟨dt, df, ws, wu, acc, hshape⟩ := teamsLoop_shape summaries ts
    have hroll := teamsLoop_rollup summaries ts mZero 0 0 hok
    rw [hshape] at hroll
    cases acc with
    | none => simp at hroll
    | some p =>
      obtain ⟨p1, p2⟩ := p
      simp at hroll
      simp [teams, request_with_counting, hshape, hroll.2]

/-- The spec's test team: current slot has one member with phone contact, next
slot has two members with no phone contact. -/
def wTd : Summary :=
  ⟨some ⟨[⟨["call"]⟩], []⟩, some ⟨[⟨[]⟩, ⟨[]⟩], []⟩⟩

/-- A summary endpoint answering `wTd` for every team, for witnesses. -/
def wSummaries : String → FetchResult (Option Summary) :=
  fun _ => .response 200 (some wTd)

/-- Witness for `teams_slots_flags_and_rollups` on the spec's test team. -/
theorem teams_slots_flags_and_rollups_witness :
    List.lookup ("x", "current")
        (processEvent "x" "current" (some ⟨[⟨["call"]⟩], []⟩) mZero false
          false).1.rotation_staff = some 1 ∧
    (processTeam "x" wTd mZero).2.1 = true ∧
    (processTeam "x" wTd mZero).2.2 = true ∧
    (teams (.response 200 (some ["a"])) wSummaries mZero).1.teams_understaffed = 1 ∧
    (teams (.response 200 (some ["a"])) wSummaries mZero).1.teams_unreachable = 1 := by
  have h := teams_slots_flags_and_rollups "x" "current" ⟨[⟨["call"]⟩], []⟩ mZero false
    false wTd ["a"] wSummaries mZero (by intro t0 _; rfl)
  refine ⟨h.1, ?_, ?_, ?_, ?_⟩
  · exact h.2.2.1 ⟨⟨[⟨["call"]⟩], []⟩, Or.inl rfl, by decide⟩
  · exact h.2.2.2.1 ⟨⟨[⟨[]⟩, ⟨[]⟩], []⟩, Or.inr rfl, by decide⟩
  · rw [h.2.2.2.2.1]; rfl
  · rw [h.2.2.2.2.2]; rfl

/-- C2 counterexample: 202 is a 2xx-style success status, yet the health gauge
is set to 0, not 1 — the code tests `== 200` exactly. -/
theorem health_202_sets_zero :
    (200 ≤ 202 ∧ 202 < 300) ∧ (health (.response 202 ()) mZero).1.health_status = 0 := by
  exact ⟨by decide, by decide⟩

/-- C2 (amended): for every received HTTP response, the health gauge is set to
1 exactly when the status equals 200, and to 0 for any other status (including
other 2xx statuses). -/
theorem health_gauge_eq_200_indicator (s : Nat) (b : Unit) (m : Metrics) :
    (health (.response s b) m).1.health_status = if s = 200 then 1 else 0 := by
  by_cases h : s = 200 <;> simp [health, request_with_counting, h]

/-- C7: every call to `request_with_counting` increments the attempt counter
exactly once regardless of outcome (transport errors included), and increments
the failure counter exactly once iff a response with a non-200 status was
received. -/
theorem request_with_counting_counters (β : Type) (m : Metrics) (r : FetchResult β) :
    (request_with_counting m r).1.api_requests_total = m.api_requests_total + 1 ∧
    (request_with_counting m r).1.api_requests_failed_total =
      m.api_requests_failed_total +
        (match r with
          | .transportError => 0
          | .response s _ => if s = 200 then 0 else 1) := by
  cases r with
  | transportError => simp [request_with_counting]
  | response s b =>
    by_cases h : s = 200 <;> simp [request_with_counting, h]

/-- C4: when the user-list fetch returns a non-success status, the User
Aggregator writes none of its three gauges (they keep their previous values)
and does not raise. -/
theorem users_non_success_leaves_gauges (s : Nat) (hs : s ≠ 200)
    (body : Option (List User)) (m : Metrics) :
    (number_of_users_without_contacts (.response s body) m).1.users_total = m.users_total ∧
    (number_of_users_without_contacts (.response s body) m).1.users_without_contacts =
      m.users_without_contacts ∧
    (number_of_users_without_contacts (.response s body) m).1.users_without_phone =
      m.users_without_phone ∧
    (number_of_users_without_contacts (.response s body) m).2 = false := by
  simp [number_of_users_without_contacts, request_with_counting, hs]

/-- Witness for `users_non_success_leaves_gauges` at status 500. -/
theorem users_non_success_leaves_gauges_witness :
    (number_of_users_without_contacts (.response 500 none) mZero).1.users_total =
      mZero.users_total ∧
    (number_of_users_without_contacts (.response 500 none) mZero).1.users_without_contacts =
      mZero.users_without_contacts ∧
    (number_of_users_without_contacts (.response 500 none) mZero).1.users_without_phone =
      mZero.users_without_phone ∧
    (number_of_users_without_contacts (.response 500 none) mZero).2 = false :=
  users_non_success_leaves_gauges 500 (by decide) none mZero

/-- C3: on a successful user-list fetch the User Aggregator writes the list
length, the count of users with empty contacts, and the count of users lacking
both `call` and `sms`; the classifications are independent: a user with empty
contacts satisfies both predicates, a user with only an `email` contact
satisfies only the phone-less one. -/
theorem users_success_counts (us : List User) (m : Metrics) :
    (number_of_users_without_contacts (.response 200 (some us)) m).1.users_total =
      us.length ∧
    (number_of_users_without_contacts (.response 200 (some us)) m).1.users_without_contacts =
      (us.filter (fun u => u.contacts.isEmpty)).length ∧
    (number_of_users_without_contacts (.response 200 (some us)) m).1.users_without_phone =
      (us.filter userNoPhone).length ∧
    (∀ u : User, u.contacts = [] → u.contacts.isEmpty = true ∧ userNoPhone u = true) ∧
    (∀ n : String, (User.mk n ["email"]).contacts.isEmpty = false ∧
      userNoPhone (User.mk n ["email"]) = true) := by
  refine ⟨?_, ?_, ?_, ?_, ?_⟩
  · simp [number_of_users_without_contacts, request_with_counting]
  · simp [number_of_users_without_contacts, request_with_counting]
  · simp [number_of_users_without_contacts, request_with_counting]
  · intro u h
    simp [userNoPhone, h]
  · intro n
    simp [userNoPhone]

/-- Witness for `users_success_counts` on a three-user list. -/
theorem users_success_counts_witness :
    (number_of_users_without_contacts
        (.response 200 (some [⟨"a", []⟩, ⟨"b", ["email"]⟩, ⟨"c", ["call"]⟩]))
        mZero).1.users_total = 3 ∧
    (User.mk "a" []).contacts.isEmpty = true ∧ userNoPhone ⟨"a", []⟩ = true ∧
    (User.mk "b" ["email"]).contacts.isEmpty = false ∧
    userNoPhone (User.mk "b" ["email"]) = true := by
  have h := users_success_counts [⟨"a", []⟩, ⟨"b", ["email"]⟩, ⟨"c", ["call"]⟩] mZero
  exact ⟨h.1, (h.2.2.2.1 ⟨"a", []⟩ rfl).1, (h.2.2.2.1 ⟨"a", []⟩ rfl).2,
    (h.2.2.2.2 "b").1, (h.2.2.2.2 "b").2⟩

/-- C6: a team whose summary has both slots null gets 0 written to both label
series of both slots, and both team flags stay false, so it contributes 0 to
both rollup counts. -/
theorem team_null_slots_zero (t : String) (m : Metrics) :
    List.lookup (t, "current") (processTeam t ⟨none, none⟩ m).1.rotation_staff = some 0 ∧
    List.lookup (t, "next") (processTeam t ⟨none, none⟩ m).1.rotation_staff = some 0 ∧
    List.lookup (t, "current") (processTeam t ⟨none, none⟩ m).1.rotation_unreachable =
      some 0 ∧
    List.lookup (t, "next") (processTeam t ⟨none, none⟩ m).1.rotation_unreachable = some 0 ∧
    (processTeam t ⟨none, none⟩ m).2.1 = false ∧
    (processTeam t ⟨none, none⟩ m).2.2 = false := by
  simp [processTeam, processEvent, gaugeSet, List.lookup]
  all_goals split <;> rfl

/-- C10: a slot whose event is the truthy-but-empty `{"primary": [],
"secondary": []}` takes the non-empty branch: both label series are set to 0
and both team flags become true (0 < 2 and the empty filtered list equals the
empty member list); only a falsy slot value (modelled `none`) leaves the flags
untouched. -/
theorem empty_rosters_truthy_event_flags (t time : String) (m : Metrics)
    (isU isR : Bool) :
    List.lookup (t, time) (processEvent t time (some ⟨[], []⟩) m isU isR).1.rotation_staff =
      some 0 ∧
    List.lookup (t, time)
        (processEvent t time (some ⟨[], []⟩) m isU isR).1.rotation_unreachable = some 0 ∧
    (processEvent t time (some ⟨[], []⟩) m isU isR).2.1 = true ∧
    (processEvent t time (some ⟨[], []⟩) m isU isR).2.2 = true ∧
    (processEvent t time none m isU isR).2 = (isU, isR) := by
  simp [processEvent, gaugeSet, List.lookup, memberNoPhone]

/-- C5: when a team's summary fetch returns a non-success status, the loop
skips that team entirely — the metrics change only by the request counters (no
label series is written), the rollup accumulators are untouched, and the loop
continues with the remaining teams. -/
theorem failed_summary_skips_team (t : String) (rest : List String) (m : Metrics)
    (u r : Nat) (summaries : String → FetchResult (Option Summary)) (s : Nat)
    (body : Option Summary) (hfetch : summaries t = .response s body) (hs : s ≠ 200) :
    teamsLoop summaries (t :: rest) m u r =
      teamsLoop summaries rest (request_with_counting m (summaries t)).1 u r ∧
    (request_with_counting m (summaries t)).1.rotation_staff = m.rotation_staff ∧
    (request_with_counting m (summaries t)).1.rotation_unreachable =
      m.rotation_unreachable := by
  refine ⟨?_, ?_, ?_⟩
  · simp [teamsLoop, hfetch, request_with_counting, hs]
  · simp [hfetch, request_with_counting, hs]
  · simp [hfetch, request_with_counting, hs]

/-- C8: an updater that raises does not disturb the pass or the loop: the pass
continues with the remaining updaters from the state the raising updater left
behind, the loop keeps making further passes, and more generally the schedule
is insensitive to which updaters raise (only their state effects matter). A
concrete in-repo raiser: the User Aggregator on malformed JSON. -/
theorem scheduler_isolates_updater_errors (f : Metrics → Metrics × Bool)
    (rest fs gs : List (Metrics → Metrics × Bool)) (m : Metrics) (n : Nat)
    (hraise : (f m).2 = true)
    (heffects : fs.map (fun g s => (g s).1) = gs.map (fun g s => (g s).1)) :
    runPass (f :: rest) m = runPass rest (f m).1 ∧
    runLoop (f :: rest) (n + 1) m = runLoop (f :: rest) n (runPass (f :: rest) m) ∧
    runPass fs m = runPass gs m ∧
    (∀ k : Nat, runLoop fs k m = runLoop gs k m) ∧
    (∀ m' : Metrics, (number_of_users_without_contacts (.response 200 none) m').2 = true) := by
  refine ⟨rfl, rfl, runPass_congr fs gs heffects m, fun k => runLoop_congr fs gs heffects k m,
    fun m' => ?_⟩
  simp [number_of_users_without_contacts, request_with_counting]

/-- Witness for `scheduler_isolates_updater_errors`: a raising updater next to
a non-raising one with the same state effect. -/
theorem scheduler_isolates_updater_errors_witness :
    runPass [fun m : Metrics => (m, true), health (.response 200 ())] mZero =
      runPass [health (.response 200 ())] ((fun m : Metrics => (m, true)) mZero).1 ∧
    runLoop [fun m : Metrics => (m, true), health (.response 200 ())] 1 mZero =
      runLoop [fun m : Metrics => (m, true), health (.response 200 ())] 0
        (runPass [fun m : Metrics => (m, true), health (.response 200 ())] mZero) ∧
    runPass [fun m : Metrics => (m, true)] mZero =
      runPass [fun m : Metrics => (m, false)] mZero ∧
    (∀ k : Nat, runLoop [fun m : Metrics => (m, true)] k mZero =
      runLoop [fun m : Metrics => (m, false)] k mZero) ∧
    (∀ m' : Metrics, (number_of_users_without_contacts (.response 200 none) m').2 = true) :=
  scheduler_isolates_updater_errors (fun m => (m, true)) [health (.response 200 ())]
    [fun m => (m, true)] [fun m => (m, false)] mZero 0 rfl rfl

/-- C9 counterexample: the health updater run twice against the same healthy
upstream does not produce identical metric values — `oncall_api_requests_total`
is 1 after the first run and 2 after the second. -/
theorem health_twice_requests_counter_differs :
    (health (.response 200 ()) mZero).1.api_requests_total = 1 ∧
    (health (.response 200 ()) (health (.response 200 ()) mZero).1).1.api_requests_total
      = 2 := by
  exact ⟨rfl, rfl⟩

/-- C9 (amended): for a fixed upstream, a second run of any of the three
updaters reproduces exactly the gauge values left by the first run (scalar
gauges and every labelled series); only the two request counters advance
between the runs. -/
theorem aggregators_gauge_idempotent (rh : FetchResult Unit)
    (ru : FetchResult (Option (List User))) (rt : FetchResult (Option (List String)))
    (summaries : String → FetchResult (Option Summary)) (m : Metrics) :
    gaugeEquiv (health rh (health rh m).1).1 (health rh m).1 ∧
    gaugeEquiv
      (number_of_users_without_contacts ru
        (number_of_users_without_contacts ru m).1).1
      (number_of_users_without_contacts ru m).1 ∧
    gaugeEquiv (teams rt summaries (teams rt summaries m).1).1 (teams rt summaries m).1 := by
  refine ⟨?_, ?_, ?_⟩
  · cases rh with
    | transportError => simp [health, request_with_counting, gaugeEquiv]
    | response s b =>
      by_cases h : s = 200 <;> simp [health, request_with_counting, gaugeEquiv, h]
  · cases ru with
    | transportError =>
      simp [number_of_users_without_contacts, request_with_counting, gaugeEquiv]
    | response s body =>
      by_cases h : s = 200
      · subst h
        cases body with
        | none =>
          simp [number_of_users_without_contacts, request_with_counting, gaugeEquiv]
        | some us =>
          simp [number_of_users_without_contacts, request_with_counting, gaugeEquiv]
      · simp [number_of_users_without_contacts, request_with_counting, gaugeEquiv, h]
  · cases rt with
    | transportError => simp [teams, request_with_counting, gaugeEquiv]
    | response s body =>
      by_cases h : s = 200
      · subst h
        cases body with
        | none => simp [teams, request_with_counting, gaugeEquiv]
        | some ts =>
          obtain ⟨dt, df, ws, wu, acc, hloop⟩ := teamsLoop_shape summaries ts
          cases acc with
          | none =>
            simp [teams, request_with_counting, gaugeEquiv, hloop, lookup_append_idem]
          | some p =>
            simp [teams, request_with_counting, gaugeEquiv, hloop, lookup_append_idem]
      · simp [teams, request_with_counting, gaugeEquiv, h]

/-- A concrete summary endpoint that always answers 500, for witnesses. -/
def failSummaries : String → FetchResult (Option Summary) :=
  fun _ => .response 500 none

/-- Witness for `failed_summary_skips_team` with a summary endpoint that
answers 500. -/
theorem failed_summary_skips_team_witness :
    teamsLoop failSummaries ["b", "c"] mZero 0 0 =
      teamsLoop failSummaries ["c"] (request_with_counting mZero (failSummaries "b")).1 0 0 ∧
    (request_with_counting mZero (failSummaries "b")).1.rotation_staff =
      mZero.rotation_staff ∧
    (request_with_counting mZero (failSummaries "b")).1.rotation_unreachable =
      mZero.rotation_unreachable :=
  failed_summary_skips_team "b" ["c"] mZero 0 0 failSummaries 500 none rfl (by decide)
